import Mathlib

/-!
Shallow embedding of the trends-backend aggregation pipeline
(`src/api/main.py`, with `src/api/index.py` as a near-identical variant).

The pandas/requests layer is modelled as follows:
* `sortBy` models `sort_values` (we only rely on sortedness and length,
  which hold for any comparison sort);
* `PFloat` models the pandas float scalar domain restricted to the values
  produced by `pct_change` / `mean`: finite rationals, the two infinities
  and NaN, with IEEE-style addition and division;
* outbound HTTP / data-source calls are inputs (`RedditFetch`,
  `GoogleFetch`) together with a call counter in the endpoint result;
* the Supabase `trends` table is a list of `TrendRecord` in an explicit
  state `St` threaded through the endpoints.
-/

/-- Insertion of `a` into `l` before the first element `b` with
`r a b = true`; building block of `sortBy`. -/
def insertBy {α : Type} (r : α → α → Bool) (a : α) : List α → List α
  | [] => [a]
  | b :: l => if r a b then a :: b :: l else b :: insertBy r a l

/-- Comparison sort used to model `DataFrame.sort_values` /
`Series.sort_values` (stable insertion sort; the claims only use
sortedness, length and membership). -/
def sortBy {α : Type} (r : α → α → Bool) : List α → List α
  | [] => []
  | a :: l => insertBy r a (sortBy r l)

theorem perm_insertBy {α : Type} (r : α → α → Bool) (a : α) (l : List α) :
    List.Perm (insertBy r a l) (a :: l) := by
  induction l with
  | nil => exact List.Perm.refl _
  | cons b t ih =>
    by_cases h : r a b = true
    · simp [insertBy, h]
    · simp only [insertBy, if_neg h]
      exact (ih.cons b).trans (List.Perm.swap a b t)

theorem perm_sortBy {α : Type} (r : α → α → Bool) (l : List α) :
    List.Perm (sortBy r l) l := by
  induction l with
  | nil => exact List.Perm.refl _
  | cons a t ih => exact (perm_insertBy r a (sortBy r t)).trans (ih.cons a)

theorem length_sortBy {α : Type} (r : α → α → Bool) (l : List α) :
    (sortBy r l).length = l.length :=
  (perm_sortBy r l).length_eq

theorem pairwise_insertBy {α : Type} (r : α → α → Bool)
    (htot : ∀ a b, r a b = true ∨ r b a = true)
    (htrans : ∀ a b c, r a b = true → r b c = true → r a c = true)
    (a : α) (l : List α) (h : l.Pairwise (fun x y => r x y = true)) :
    (insertBy r a l).Pairwise (fun x y => r x y = true) := by
  induction l with
  | nil => simp [insertBy]
  | cons b t ih =>
    rcases List.pairwise_cons.mp h with ⟨hb, ht⟩
    by_cases hab : r a b = true
    · simp only [insertBy, if_pos hab]
      refine List.pairwise_cons.mpr ⟨?_, h⟩
      intro x hx
      rcases List.mem_cons.mp hx with heq | hx'
      · rw [heq]; exact hab
      · exact htrans a b x hab (hb x hx')
    · simp only [insertBy, if_neg hab]
      refine List.pairwise_cons.mpr ⟨?_, ih ht⟩
      intro x hx
      rcases List.mem_cons.mp ((perm_insertBy r a t).mem_iff.mp hx) with heq | hx'
      · rw [heq]
        rcases htot a b with h1 | h1
        · exact absurd h1 hab
        · exact h1
      · exact hb x hx'

theorem pairwise_sortBy {α : Type} (r : α → α → Bool)
    (htot : ∀ a b, r a b = true ∨ r b a = true)
    (htrans : ∀ a b c, r a b = true → r b c = true → r a c = true)
    (l : List α) :
    (sortBy r l).Pairwise (fun x y => r x y = true) := by
  induction l with
  | nil => simp [sortBy]
  | cons a t ih => exact pairwise_insertBy r htot htrans a _ ih

/-- Pandas float scalar domain as produced by `pct_change` and `mean` on
rational inputs: NaN, the infinities and finite rationals. -/
inductive PFloat : Type where
  | nan : PFloat
  | ninf : PFloat
  | fin (q : ℚ) : PFloat
  | pinf : PFloat
deriving DecidableEq

/-- IEEE-style addition on `PFloat` (used by `Series.sum` inside `mean`). -/
def PFloat.add : PFloat → PFloat → PFloat
  | .nan, _ => .nan
  | _, .nan => .nan
  | .pinf, .ninf => .nan
  | .ninf, .pinf => .nan
  | .pinf, _ => .pinf
  | _, .pinf => .pinf
  | .ninf, _ => .ninf
  | _, .ninf => .ninf
  | .fin p, .fin q => .fin (p + q)

/-- Left fold sum starting from `0.0`, as pandas sums a series. -/
def PFloat.listSum (l : List PFloat) : PFloat :=
  l.foldl PFloat.add (.fin 0)

/-- Division of a `PFloat` by a positive count (the `len` divisor of
`mean`). -/
def PFloat.divNat : PFloat → ℕ → PFloat
  | .nan, _ => .nan
  | .pinf, _ => .pinf
  | .ninf, _ => .ninf
  | .fin q, n => .fin (q / (n : ℚ))

/-- `Series.mean` with the default `skipna=True`: drop NaNs, divide the sum
of the rest by their count; all-NaN (or empty) input yields NaN. -/
def pmean (l : List PFloat) : PFloat :=
  let vs := l.filter (fun v => decide (v ≠ PFloat.nan))
  if vs.isEmpty then .nan else (PFloat.listSum vs).divNat vs.length

/-- One step of `pct_change`: `(x - prev) / prev` with float semantics
(`0/0 = NaN`, `x/0 = ±inf` for nonzero `x`). -/
def pctOne (prev x : ℚ) : PFloat :=
  if prev = 0 then
    (if x = 0 then .nan else if 0 < x then .pinf else .ninf)
  else .fin ((x - prev) / prev)

/-- `Series.pct_change()` on a column of finite values: leading NaN, then
period-over-period relative change. -/
def pctChange : List ℚ → List PFloat
  | [] => []
  | x :: rest => .nan :: List.zipWith pctOne (x :: rest) rest

/-- Per-column value of `df.pct_change().mean()`. -/
def meanPct (col : List ℚ) : PFloat :=
  pmean (pctChange col)

/-- Ordering used by `sort_values(ascending=False)` on a float series:
larger values first, NaN always last (`na_position` default). -/
def PFloat.descLE : PFloat → PFloat → Bool
  | _, .nan => true
  | .nan, _ => false
  | .pinf, _ => true
  | _, .pinf => false
  | .fin p, .fin q => decide (q ≤ p)
  | .fin _, .ninf => true
  | .ninf, .fin _ => false
  | .ninf, .ninf => true

theorem PFloat.descLE_refl (a : PFloat) : PFloat.descLE a a = true := by
  cases a <;> simp [PFloat.descLE]

theorem PFloat.descLE_total (a b : PFloat) :
    PFloat.descLE a b = true ∨ PFloat.descLE b a = true := by
  cases a <;> cases b <;> simp [PFloat.descLE]
  exact le_total _ _

theorem PFloat.descLE_trans (a b c : PFloat)
    (h1 : PFloat.descLE a b = true) (h2 : PFloat.descLE b c = true) :
    PFloat.descLE a c = true := by
  cases a <;> cases b <;> cases c <;> simp_all [PFloat.descLE]
  exact le_trans h2 h1

/-- `df.empty` for a frame given as ordered columns of values: true iff
there are no columns or no rows. -/
def dfEmpty (cols : List (String × List ℚ)) : Bool :=
  cols.isEmpty || cols.any (fun c => c.2.isEmpty)

/-- `df.pct_change().mean().sort_values(ascending=False).head(5).to_dict()`
guarded by the `df.empty` check of `google_trends` (src/api/main.py lines
76-80). -/
def risingOf (cols : List (String × List ℚ)) : List (String × PFloat) :=
  if dfEmpty cols then []
  else
    (sortBy (fun a b => PFloat.descLE a.2 b.2)
      (cols.map (fun c => (c.1, meanPct c.2)))).take 5

/-- Analysis dict built by `google_trends` (src/api/main.py lines 82-86). -/
structure GoogleAnalysis : Type where
  rising_keywords : List (String × PFloat)
  top_related : List (String × Int)
  insights : String
deriving DecidableEq

/-- The analysis step of `google_trends`: rising keywords from the
interest-over-time frame, first five related "top" entries, and the
insight line naming the first rising key or the `N/A` sentinel. -/
def googleAnalyze (interest : List (String × List ℚ))
    (relatedTop : List (String × Int)) : GoogleAnalysis :=
  let rising := risingOf interest
  { rising_keywords := rising
    top_related := relatedTop.take 5
    insights := "Top rising: " ++
      (match rising.head? with
       | some kv => kv.1
       | none => "N/A") }

/-- A Reddit post record (`post["data"]`) restricted to the fields the
pipeline reads; `selftext` is optional because the analysis step can hit a
missing `selftext` column. -/
structure RedditPost : Type where
  title : String
  score : Int
  num_comments : Int
  created_utc : Int
  selftext : Option String
deriving DecidableEq

/-- Row of `df[["title", "score", "num_comments", "created_utc"]]`. -/
structure TopPost : Type where
  title : String
  score : Int
  num_comments : Int
  created_utc : Int
deriving DecidableEq

def RedditPost.proj (p : RedditPost) : TopPost :=
  ⟨p.title, p.score, p.num_comments, p.created_utc⟩

/-- `df[[...]].sort_values("score", ascending=False).head(5)` (src/api/
main.py line 118). -/
def topPosts (raw : List RedditPost) : List TopPost :=
  (sortBy (fun a b => decide (b.score ≤ a.score))
    (raw.map RedditPost.proj)).take 5

/-- Python `str.split()`: split on whitespace, dropping empty pieces. -/
def pySplit (s : String) : List String :=
  (s.split (fun c => c.isWhitespace)).filter (fun w => decide (w ≠ ""))

/-- `Series.value_counts()`: distinct values in first-appearance order
with their counts, sorted by count descending. -/
def valueCounts (ws : List String) : List (String × ℕ) :=
  sortBy (fun a b => decide (b.2 ≤ a.2))
    (ws.eraseDups.map (fun w => (w, ws.count w)))

/-- Analysis dict built by `reddit_trends` (src/api/main.py lines
125-129); on the zero-post path only `insights` is present, hence the
optional fields. -/
structure RedditAnalysis : Type where
  top_posts : Option (List TopPost)
  top_keywords : Option (List (String × ℕ))
  insights : String
deriving DecidableEq

/-- The analysis step of `reddit_trends` on a non-empty post list
(src/api/main.py lines 117-129).  When no fetched post has a `selftext`
field the frame has no `selftext` column and `df["selftext"]` raises
`KeyError` (its message is the missing key), surfaced as the error value. -/
def redditAnalyze (raw : List RedditPost) : Except String RedditAnalysis :=
  let tp := topPosts raw
  if raw.all (fun p => p.selftext.isNone) then .error ("selftext")
  else
    let allText :=
      String.intercalate (" ")
        (raw.map (fun p => p.title ++ " " ++ p.selftext.getD ("")))
    let tk := (valueCounts (pySplit allText.toLower)).take 5
    .ok
      { top_posts := some tp
        top_keywords := some tk
        insights :=
          match tp.head? with
          | some p =>
              "Top post: " ++ p.title ++ " (" ++ toString p.score ++
                " points, " ++ toString p.num_comments ++ " comments)"
          | none => "No posts" }

/-- `HTTPException(status_code, detail)`. -/
structure HTTPError : Type where
  status : ℕ
  detail : String
deriving DecidableEq

/-- Raw payload stored in a trend record, by platform. -/
structure GoogleRaw : Type where
  interest_over_time : List (String × List ℚ)
  related_queries : List (String × Int)
  interest_by_region : List (String × ℚ)
deriving DecidableEq

inductive RawData : Type where
  | google (r : GoogleRaw) : RawData
  | reddit (posts : List RedditPost) : RawData
deriving DecidableEq

inductive AnalysisData : Type where
  | google (a : GoogleAnalysis) : AnalysisData
  | reddit (a : RedditAnalysis) : AnalysisData
deriving DecidableEq

/-- Row inserted into the Supabase `trends` table. -/
structure TrendRecord : Type where
  platform : String
  query : String
  raw : RawData
  analysis : AnalysisData
  timestamp : String
deriving DecidableEq

/-- Explicit request-visible state: the `trends` table and the value
`pd.Timestamp.now().isoformat()` would produce at write time. -/
structure St : Type where
  trends : List TrendRecord
  now : String
deriving DecidableEq

/-- `verify_api_key` (src/api/main.py lines 41-47): a missing/empty
configured key is a `RuntimeError` (surfaced by the framework as a 500),
a mismatching query parameter is a 403. -/
def verify_api_key (expected api_key : String) : Except HTTPError String :=
  if expected = "" then
    .error ⟨500, "API_KEY not set in environment variables"⟩
  else if api_key ≠ expected then .error ⟨403, "Invalid API key"⟩
  else .ok api_key

/-- One child of the Reddit search listing: either it lacks the `data`
key (so `post["data"]` raises `KeyError`) or it carries a post record. -/
inductive RedditChild : Type where
  | noData : RedditChild
  | withData (p : RedditPost) : RedditChild
deriving DecidableEq

/-- Parsed JSON body of the Reddit response: either not a dict (so
`data.get` raises `AttributeError` with message `msg`) or a dict whose
`data.children` list is `children` (missing keys default to `[]`). -/
inductive RedditBody : Type where
  | nonDict (msg : String) : RedditBody
  | dict (children : List RedditChild) : RedditBody
deriving DecidableEq

/-- Outcome of `requests.get` + `raise_for_status` + `json()`: a
`requests.exceptions.RequestException` (timeout, network, non-2xx, bad
JSON) with message `msg`, or a parsed body. -/
inductive RedditFetch : Type where
  | requestError (msg : String) : RedditFetch
  | body (b : RedditBody) : RedditFetch
deriving DecidableEq

/-- `raw = [post["data"] for post in posts]`: fails with `KeyError` on the
first child without a `data` key. -/
def extractRaw : List RedditChild → Except String (List RedditPost)
  | [] => .ok []
  | .noData :: _ => .error ("data")
  | .withData p :: rest => (extractRaw rest).map (fun l => p :: l)

/-- Success body of `/api/reddit-trends`. -/
structure RedditResponse : Type where
  platform : String
  raw : List RedditPost
  analysis : RedditAnalysis
deriving DecidableEq

/-- `/api/reddit-trends` (src/api/main.py lines 102-144).  Inputs: the
configured secret, the query, the presented key, the outcome the data
source would give, and the state.  Output: response-or-error, the new
state, and how many outbound data-source calls were made. -/
def reddit_trends (secret query api_key : String) (fetch : RedditFetch)
    (st : St) : Except HTTPError RedditResponse × St × ℕ :=
  match verify_api_key secret api_key with
  | .error e => (.error e, st, 0)
  | .ok _ =>
    match fetch with
    | .requestError m =>
        (.error ⟨500, "Reddit request failed: " ++ m⟩, st, 1)
    | .body (.nonDict m) =>
        (.error ⟨500, "Reddit processing error: " ++ m⟩, st, 1)
    | .body (.dict children) =>
      match extractRaw children with
      | .error m => (.error ⟨500, "Reddit processing error: " ++ m⟩, st, 1)
      | .ok raw =>
        if raw.isEmpty then
          (.ok ⟨"reddit", [], ⟨none, none, "No results found"⟩⟩, st, 1)
        else
          match redditAnalyze raw with
          | .error m =>
              (.error ⟨500, "Reddit processing error: " ++ m⟩, st, 1)
          | .ok analysis =>
              (.ok ⟨"reddit", raw, analysis⟩,
               ⟨st.trends ++
                  [⟨"reddit", query, .reddit raw, .reddit analysis,
                    st.now⟩],
                st.now⟩,
               1)

/-- Outcome of the pytrends calls of `google_trends`: an exception from
the transport layer, an exception from any other processing step, or the
fetched data (interest-over-time columns, related "top" rows, regions). -/
inductive GoogleFetch : Type where
  | transportFail (msg : String) : GoogleFetch
  | processingFail (msg : String) : GoogleFetch
  | fetched (interest : List (String × List ℚ))
      (related : List (String × Int))
      (regions : List (String × ℚ)) : GoogleFetch
deriving DecidableEq

/-- Success body of `/api/google-trends`. -/
structure GoogleResponse : Type where
  platform : String
  raw : GoogleRaw
  analysis : GoogleAnalysis
deriving DecidableEq

/-- `/api/google-trends` (src/api/main.py lines 60-99).  The single
`except Exception` handler turns every failure, transport or otherwise,
into the same 500 `Google Trends error` response. -/
def google_trends (secret query api_key : String) (fetch : GoogleFetch)
    (st : St) : Except HTTPError GoogleResponse × St × ℕ :=
  match verify_api_key secret api_key with
  | .error e => (.error e, st, 0)
  | .ok _ =>
    match fetch with
    | .transportFail m =>
        (.error ⟨500, "Google Trends error: " ++ m⟩, st, 1)
    | .processingFail m =>
        (.error ⟨500, "Google Trends error: " ++ m⟩, st, 1)
    | .fetched interest related regions =>
        let raw : GoogleRaw := ⟨interest, related, regions⟩
        let analysis := googleAnalyze interest related
        (.ok ⟨"google", raw, analysis⟩,
         ⟨st.trends ++
            [⟨"google", query, .google raw, .google analysis, st.now⟩],
          st.now⟩,
         1)

/-- Environment as read by `os.getenv`. -/
structure Env : Type where
  api_key : Option String
  supabase_url : Option String
  supabase_key : Option String
deriving DecidableEq

/-- Response body of `/api/env-test` (src/api/index.py lines 140-148). -/
structure EnvTestResponse : Type where
  api_key_set : Bool
  api_key_value_preview : Option String
  supabase_url : Option String
  supabase_key_set : Bool
  supabase_key_preview : Option String
deriving DecidableEq

/-- Python truthiness of an `os.getenv` result (`None` and `""` are
falsy). -/
def pyTruthy : Option String → Bool
  | none => false
  | some s => decide (s ≠ "")

/-- `os.getenv(k)[:10] + "..." if os.getenv(k) else None`. -/
def envPreview (v : Option String) : Option String :=
  if pyTruthy v then some ((v.getD ("")).take 10 ++ "...") else none

/-- `env_test` (src/api/index.py lines 140-148). -/
def env_test (e : Env) : EnvTestResponse :=
  { api_key_set := pyTruthy e.api_key
    api_key_value_preview := envPreview e.api_key
    supabase_url := e.supabase_url
    supabase_key_set := pyTruthy e.supabase_key
    supabase_key_preview := envPreview e.supabase_key }

/-- The `/api/env-test` route: it has no `verify_api_key` dependency, so
the handler runs whatever `api_key` query parameter (if any) was sent. -/
def env_test_route (api_key_param : Option String) (e : Env) :
    Except HTTPError EnvTestResponse :=
  .ok (env_test e)

theorem verify_api_key_ok {secret api_key : String} (hs : secret ≠ "")
    (hk : api_key = secret) :
    verify_api_key secret api_key = .ok api_key := by
  simp [verify_api_key, hs, hk]

theorem dfEmpty_eq_false {cols : List (String × List ℚ)} {n : ℕ}
    (hn : 0 < n) (hrect : ∀ c ∈ cols, c.2.length = n) (hne : cols ≠ []) :
    dfEmpty cols = false := by
  have h1 : cols.isEmpty = false := by
    cases cols with
    | nil => exact absurd rfl hne
    | cons a t => rfl
  have h2 : cols.any (fun c => c.2.isEmpty) = false := by
    rw [List.any_eq_false]
    intro c hc
    have hl := hrect c hc
    cases hcl : c.2 with
    | nil => rw [hcl] at hl; simp at hl; omega
    | cons x xs => simp [hcl]
  simp [dfEmpty, h1, h2]

/-- C1: for every non-empty list of fetched Reddit post records, the
`top_posts` list of the Reddit analysis is sorted by `score` descending
and has length `min 5 (number of posts)`; whenever the analysis step
succeeds, the `top_posts` it returns is exactly this list. -/
theorem reddit_top_posts_sorted_len (raw : List RedditPost)
    (hne : raw ≠ []) :
    (topPosts raw).length = min 5 raw.length ∧
    (topPosts raw).Pairwise (fun a b => b.score ≤ a.score) ∧
    ∀ a, redditAnalyze raw = .ok a → a.top_posts = some (topPosts raw) := by
  refine ⟨?_, ?_, ?_⟩
  · simp [topPosts, List.length_take, length_sortBy, List.length_map]
  · have hp := pairwise_sortBy
      (fun a b : TopPost => decide (b.score ≤ a.score))
      (fun a b => by simpa using le_total b.score a.score)
      (fun a b c h1 h2 => by
        simp only [decide_eq_true_eq] at h1 h2 ⊢
        exact le_trans h2 h1)
      (raw.map RedditPost.proj)
    have hs := List.Pairwise.sublist (List.take_sublist 5 _) hp
    exact hs.imp (fun h => by simpa using h)
  · intro a ha
    unfold redditAnalyze at ha
    split at ha
    · simp at ha
    · simp only [Except.ok.injEq] at ha
      rw [← ha]

/-- Witness for C1 at the spec scenario: three posts with scores
10, 50, 5. -/
theorem reddit_top_posts_sorted_len_witness :
    ([⟨"a", 10, 1, 0, none⟩, ⟨"b", 50, 2, 0, none⟩,
        ⟨"c", 5, 3, 0, none⟩] ≠ ([] : List RedditPost)) ∧
    (topPosts [⟨"a", 10, 1, 0, none⟩, ⟨"b", 50, 2, 0, none⟩,
        ⟨"c", 5, 3, 0, none⟩]).length = min 5 3 ∧
    (topPosts [⟨"a", 10, 1, 0, none⟩, ⟨"b", 50, 2, 0, none⟩,
        ⟨"c", 5, 3, 0, none⟩]).Pairwise (fun a b => b.score ≤ a.score) :=
  ⟨by decide,
   (reddit_top_posts_sorted_len
      [⟨"a", 10, 1, 0, none⟩, ⟨"b", 50, 2, 0, none⟩, ⟨"c", 5, 3, 0, none⟩]
      (by decide)).1,
   (reddit_top_posts_sorted_len
      [⟨"a", 10, 1, 0, none⟩, ⟨"b", 50, 2, 0, none⟩, ⟨"c", 5, 3, 0, none⟩]
      (by decide)).2.1⟩

/-- C2: for every interest-over-time frame with at least one (non-empty,
rectangular) numeric column, `rising_keywords` has length
`min 5 (number of columns)` and is ordered by the per-column mean of
period-over-period percentage change, descending (NaN means last). -/
theorem google_rising_len_sorted (cols : List (String × List ℚ))
    (related : List (String × Int)) (n : ℕ) (hn : 0 < n)
    (hrect : ∀ c ∈ cols, c.2.length = n) (hne : cols ≠ []) :
    (googleAnalyze cols related).rising_keywords.length = min 5 cols.length ∧
    (googleAnalyze cols related).rising_keywords.Pairwise
      (fun a b => PFloat.descLE a.2 b.2 = true) := by
  have hde : dfEmpty cols = false := dfEmpty_eq_false hn hrect hne
  have hrise : (googleAnalyze cols related).rising_keywords =
      (sortBy (fun a b => PFloat.descLE a.2 b.2)
        (cols.map (fun c => (c.1, meanPct c.2)))).take 5 := by
    simp [googleAnalyze, risingOf, hde]
  constructor
  · rw [hrise, List.length_take, length_sortBy, List.length_map]
  · rw [hrise]
    exact List.Pairwise.sublist (List.take_sublist 5 _)
      (pairwise_sortBy
        (fun (a b : String × PFloat) => PFloat.descLE a.2 b.2)
        (fun a b => PFloat.descLE_total a.2 b.2)
        (fun a b c h1 h2 => PFloat.descLE_trans a.2 b.2 c.2 h1 h2) _)

/-- Witness for C2 at a two-column, two-row frame. -/
theorem google_rising_len_sorted_witness :
    0 < 2 ∧
    (googleAnalyze [("ai", [1, 2]), ("ml", [2, 1])] []).rising_keywords.length
      = min 5 2 ∧
    (googleAnalyze [("ai", [1, 2]), ("ml", [2, 1])] []).rising_keywords.Pairwise
      (fun a b => PFloat.descLE a.2 b.2 = true) :=
  ⟨by decide,
   (google_rising_len_sorted [("ai", [1, 2]), ("ml", [2, 1])] [] 2
      (by decide) (by decide) (by decide)).1,
   (google_rising_len_sorted [("ai", [1, 2]), ("ml", [2, 1])] [] 2
      (by decide) (by decide) (by decide)).2⟩

/-- C3: a Reddit fetch that parses to zero posts yields a success
response whose `raw` is `[]` and whose analysis carries exactly the
`No results found` insight (and nothing else); the store and the call
counter show one fetch and no insertion. -/
theorem reddit_empty_results (secret query api_key : String) (st : St)
    (hs : secret ≠ "") (hk : api_key = secret) :
    reddit_trends secret query api_key (.body (.dict [])) st =
      (.ok ⟨"reddit", [], ⟨none, none, "No results found"⟩⟩, st, 1) := by
  simp [reddit_trends, verify_api_key_ok hs hk, extractRaw]

/-- Witness for C3 at concrete key and state. -/
theorem reddit_empty_results_witness :
    ("k" : String) ≠ "" ∧
    reddit_trends "k" "q" "k" (.body (.dict [])) ⟨[], "t"⟩ =
      (.ok ⟨"reddit", [], ⟨none, none, "No results found"⟩⟩,
       ⟨[], "t"⟩, 1) :=
  ⟨by decide, reddit_empty_results "k" "q" "k" ⟨[], "t"⟩ (by decide) rfl⟩

/-- C4: if the interest-over-time frame is empty, the Google analysis has
an empty `rising_keywords` mapping and the sentinel insight
`Top rising: N/A`; otherwise (a rectangular frame with at least one
column and one row) the insight names the first rising keyword, whose
mean pct-change score is maximal among all columns. -/
theorem google_empty_sentinel_and_top_insight
    (cols : List (String × List ℚ)) (related : List (String × Int)) :
    (dfEmpty cols = true →
      (googleAnalyze cols related).rising_keywords = [] ∧
      (googleAnalyze cols related).insights = "Top rising: N/A") ∧
    (∀ n : ℕ, 0 < n → (∀ c ∈ cols, c.2.length = n) → cols ≠ [] →
      ∃ k v rest,
        (googleAnalyze cols related).rising_keywords = (k, v) :: rest ∧
        (googleAnalyze cols related).insights = "Top rising: " ++ k ∧
        ∀ c ∈ cols, PFloat.descLE v (meanPct c.2) = true) := by
  constructor
  · intro h
    constructor <;> simp [googleAnalyze, risingOf, h]
  · intro n hn hrect hne
    have hde : dfEmpty cols = false := dfEmpty_eq_false hn hrect hne
    have hperm := perm_sortBy
      (fun (a b : String × PFloat) => PFloat.descLE a.2 b.2)
      (cols.map (fun c => (c.1, meanPct c.2)))
    cases hsb : sortBy (fun (a b : String × PFloat) => PFloat.descLE a.2 b.2)
        (cols.map (fun c => (c.1, meanPct c.2))) with
    | nil =>
      exfalso
      have hlen := hperm.length_eq
      rw [hsb] at hlen
      simp at hlen
      exact hne (List.length_eq_zero.mp hlen.symm)
    | cons hd tl =>
      refine ⟨hd.1, hd.2, tl.take 4, ?_, ?_, ?_⟩
      · simp [googleAnalyze, risingOf, hde, hsb]
      · simp [googleAnalyze, risingOf, hde, hsb]
      · intro c hc
        have hmem : (c.1, meanPct c.2) ∈ hd :: tl := by
          rw [← hsb]
          exact hperm.mem_iff.mpr
            (List.mem_map_of_mem (fun c => (c.1, meanPct c.2)) hc)
        have hpw := pairwise_sortBy
          (fun (a b : String × PFloat) => PFloat.descLE a.2 b.2)
          (fun a b => PFloat.descLE_total a.2 b.2)
          (fun a b c h1 h2 => PFloat.descLE_trans a.2 b.2 c.2 h1 h2)
          (cols.map (fun c => (c.1, meanPct c.2)))
        rw [hsb] at hpw
        rcases List.mem_cons.mp hmem with heq | hmem'
        · have : hd.2 = meanPct c.2 := by rw [← heq]
          rw [this]
          exact PFloat.descLE_refl _
        · exact (List.pairwise_cons.mp hpw).1 _ hmem'

/-- Witness for C4 on the empty frame. -/
theorem google_empty_sentinel_and_top_insight_witness :
    dfEmpty [] = true ∧
    (googleAnalyze [] []).rising_keywords = [] ∧
    (googleAnalyze [] []).insights = "Top rising: N/A" :=
  ⟨rfl,
   ((google_empty_sentinel_and_top_insight [] []).1 rfl).1,
   ((google_empty_sentinel_and_top_insight [] []).1 rfl).2⟩

/-- C5: the response (and in particular the analysis it carries) is a
deterministic pure function of the fetched raw data: running either
endpoint against the same fetch outcome from any two prior states yields
the same response, so no hidden state crosses requests. -/
theorem analysis_pure_of_raw (secret query api_key : String)
    (gf : GoogleFetch) (rf : RedditFetch) (s1 s2 : St) :
    (google_trends secret query api_key gf s1).1 =
      (google_trends secret query api_key gf s2).1 ∧
    (reddit_trends secret query api_key rf s1).1 =
      (reddit_trends secret query api_key rf s2).1 := by
  constructor
  · unfold google_trends
    cases verify_api_key secret api_key <;> cases gf <;> rfl
  · unfold reddit_trends
    cases hv : verify_api_key secret api_key with
    | error e => simp only [hv]
    | ok a =>
      simp only [hv]
      cases rf with
      | requestError m => rfl
      | body b =>
        cases b with
        | nonDict m => rfl
        | dict children =>
          cases hex : extractRaw children with
          | error m => simp only [hex]
          | ok raw =>
            simp only [hex]
            cases hre : raw.isEmpty with
            | true => simp [hre]
            | false =>
              cases hra : redditAnalyze raw <;> simp [hra]

/-- C6: a request whose `api_key` differs from the configured secret is
rejected with the 403 `Invalid API key` error, the store is untouched,
and zero outbound data-source calls are made, on both endpoints. -/
theorem invalid_key_rejected_before_fetch (secret query api_key : String)
    (hs : secret ≠ "") (hk : api_key ≠ secret)
    (gf : GoogleFetch) (rf : RedditFetch) (st : St) :
    google_trends secret query api_key gf st =
      (.error ⟨403, "Invalid API key"⟩, st, 0) ∧
    reddit_trends secret query api_key rf st =
      (.error ⟨403, "Invalid API key"⟩, st, 0) := by
  have hv : verify_api_key secret api_key =
      .error ⟨403, "Invalid API key"⟩ := by
    simp [verify_api_key, hs, hk]
  constructor
  · simp [google_trends, hv]
  · simp [reddit_trends, hv]

/-- Witness for C6 with a wrong key against a configured secret. -/
theorem invalid_key_rejected_before_fetch_witness :
    ("k" : String) ≠ "" ∧ ("bad" : String) ≠ "k" ∧
    reddit_trends "k" "q" "bad" (.body (.dict [])) ⟨[], "t"⟩ =
      (.error ⟨403, "Invalid API key"⟩, ⟨[], "t"⟩, 0) :=
  ⟨by decide, by decide,
   (invalid_key_rejected_before_fetch "k" "q" "bad" (by decide) (by decide)
      (.fetched [] [] []) (.body (.dict [])) ⟨[], "t"⟩).2⟩

/-- C7 fails as stated: the Reddit zero-post path returns a success
response, yet inserts nothing — the store after the request still has
zero records, not exactly one. -/
theorem reddit_success_without_insert_counterexample :
    (reddit_trends ("k") ("q") ("k") (.body (.dict [])) ⟨[], "t"⟩).1 =
      .ok ⟨"reddit", [], ⟨none, none, "No results found"⟩⟩ ∧
    (reddit_trends ("k") ("q") ("k") (.body (.dict []))
        ⟨[], "t"⟩).2.1.trends = [] := by
  constructor <;> rfl

/-- C7 amended: every success response inserts exactly one trend record
(platform, query, raw, analysis, write-time timestamp) at the end of the
store, except the Reddit zero-post success, which inserts none and
leaves the store unchanged. -/
theorem success_inserts_exactly_one (secret query api_key : String)
    (st : St) :
    (∀ gf resp,
      (google_trends secret query api_key gf st).1 = .ok resp →
      (google_trends secret query api_key gf st).2.1.trends =
        st.trends ++
          [⟨"google", query, .google resp.raw, .google resp.analysis,
            st.now⟩]) ∧
    (∀ rf resp,
      (reddit_trends secret query api_key rf st).1 = .ok resp →
      (resp.raw = [] ∧
        (reddit_trends secret query api_key rf st).2.1 = st) ∨
      (resp.raw ≠ [] ∧
        (reddit_trends secret query api_key rf st).2.1.trends =
          st.trends ++
            [⟨"reddit", query, .reddit resp.raw, .reddit resp.analysis,
              st.now⟩])) := by
  constructor
  · intro gf resp h
    unfold google_trends at h ⊢
    cases hv : verify_api_key secret api_key with
    | error e => simp only [hv] at h; simp at h
    | ok a =>
      simp only [hv] at h
      cases gf with
      | transportFail m => simp at h
      | processingFail m => simp at h
      | fetched interest related regions =>
        have h' : (⟨"google", ⟨interest, related, regions⟩,
            googleAnalyze interest related⟩ : GoogleResponse) = resp := by
          injection h
        rw [← h']
  · intro rf resp h
    unfold reddit_trends at h ⊢
    cases hv : verify_api_key secret api_key with
    | error e => simp only [hv] at h; simp at h
    | ok a =>
      simp only [hv] at h
      cases rf with
      | requestError m => simp at h
      | body b =>
        cases b with
        | nonDict m => simp at h
        | dict children =>
          cases hex : extractRaw children with
          | error m => simp only [hex] at h; simp at h
          | ok raw =>
            simp only [hex] at h ⊢
            cases raw with
            | nil =>
              left
              have h' : (⟨"reddit", [],
                  ⟨none, none, "No results found"⟩⟩ : RedditResponse)
                    = resp := by
                injection h
              rw [← h']
              exact ⟨rfl, rfl⟩
            | cons p rest =>
              cases hra : redditAnalyze (p :: rest) with
              | error m => simp only [hra] at h; simp at h
              | ok analysis =>
                simp only [hra] at h ⊢
                right
                have h' : (⟨"reddit", p :: rest, analysis⟩ :
                    RedditResponse) = resp := by
                  injection h
                rw [← h']
                exact ⟨List.cons_ne_nil p rest, rfl⟩

/-- Witness for C7 (amended) at a concrete Google success. -/
theorem success_inserts_exactly_one_witness :
    (google_trends ("k") ("q") ("k") (.fetched [] [] []) ⟨[], "t"⟩).1 =
      .ok ⟨"google", ⟨[], [], []⟩, googleAnalyze [] []⟩ ∧
    (google_trends ("k") ("q") ("k") (.fetched [] [] [])
        ⟨[], "t"⟩).2.1.trends =
      [] ++ [⟨"google", "q", .google ⟨[], [], []⟩,
        .google (googleAnalyze [] []), "t"⟩] :=
  ⟨rfl,
   (success_inserts_exactly_one ("k") ("q") ("k") ⟨[], "t"⟩).1
     (.fetched [] [] [])
     ⟨"google", ⟨[], [], []⟩, googleAnalyze [] []⟩ rfl⟩

/-- C8 fails as stated: on the Google endpoint a non-transport failure
during fetch or analysis produces a response identical to a transport
failure with the same message, so it is not surfaced as a distinct
processing error. -/
theorem google_processing_not_distinct_counterexample :
    google_trends ("k") ("q") ("k") (.processingFail ("boom")) ⟨[], "t"⟩ =
      google_trends ("k") ("q") ("k") (.transportFail ("boom")) ⟨[], "t"⟩ ∧
    (google_trends ("k") ("q") ("k") (.processingFail ("boom"))
        ⟨[], "t"⟩).1 =
      .error ⟨500, "Google Trends error: " ++ "boom"⟩ :=
  ⟨rfl, rfl⟩

/-- C8 amended: transport failures surface as 500 errors carrying the
platform name and message on both endpoints and leave the store
unchanged; on the Reddit endpoint every non-transport failure surfaces
as a 500 `Reddit processing error` — a detail distinct from the
transport one — with the store unchanged; on the Google endpoint all
failures share the single `Google Trends error` detail.  No partial
results: every error path leaves the store exactly as it was. -/
theorem error_paths_amended (secret query api_key : String)
    (hs : secret ≠ "") (hk : api_key = secret) :
    (∀ m st, reddit_trends secret query api_key (.requestError m) st =
      (.error ⟨500, "Reddit request failed: " ++ m⟩, st, 1)) ∧
    (∀ b st e,
      (reddit_trends secret query api_key (.body b) st).1 = .error e →
      e.status = 500 ∧
      (∃ m, e.detail = "Reddit processing error: " ++ m) ∧
      (reddit_trends secret query api_key (.body b) st).2.1 = st) ∧
    (∀ m, "Reddit request failed: " ++ m ≠
      "Reddit processing error: " ++ m) ∧
    (∀ m st, google_trends secret query api_key (.transportFail m) st =
      (.error ⟨500, "Google Trends error: " ++ m⟩, st, 1)) ∧
    (∀ m st, google_trends secret query api_key (.processingFail m) st =
      (.error ⟨500, "Google Trends error: " ++ m⟩, st, 1)) := by
  have hv : verify_api_key secret api_key = .ok api_key :=
    verify_api_key_ok hs hk
  refine ⟨?_, ?_, ?_, ?_, ?_⟩
  · intro m st
    simp [reddit_trends, hv]
  · intro b st e h
    unfold reddit_trends at h ⊢
    simp only [hv] at h ⊢
    cases b with
    | nonDict m =>
      have h' : (⟨500, "Reddit processing error: " ++ m⟩ : HTTPError)
          = e := by injection h
      exact ⟨by rw [← h'], ⟨m, by rw [← h']⟩, by first | rfl | trivial⟩
    | dict children =>
      cases hex : extractRaw children with
      | error m =>
        simp only [hex] at h ⊢
        have h' : (⟨500, "Reddit processing error: " ++ m⟩ : HTTPError)
            = e := by injection h
        exact ⟨by rw [← h'], ⟨m, by rw [← h']⟩, by first | rfl | trivial⟩
      | ok raw =>
        simp only [hex] at h ⊢
        cases raw with
        | nil => simp at h
        | cons p rest =>
          cases hra : redditAnalyze (p :: rest) with
          | error m =>
            simp only [hra] at h ⊢
            have h' : (⟨500, "Reddit processing error: " ++ m⟩ : HTTPError)
                = e := by injection h
            exact ⟨by rw [← h'], ⟨m, by rw [← h']⟩, by first | rfl | trivial⟩
          | ok analysis =>
            simp only [hra] at h
            simp at h
  · intro m h
    have hlen := congrArg String.length h
    rw [String.length_append, String.length_append] at hlen
    have h23 : ("Reddit request failed: " : String).length = 23 := rfl
    have h25 : ("Reddit processing error: " : String).length = 25 := rfl
    rw [h23, h25] at hlen
    omega
  · intro m st
    simp [google_trends, hv]
  · intro m st
    simp [google_trends, hv]

/-- Witness for C8 (amended): concrete transport failure on Reddit. -/
theorem error_paths_amended_witness :
    ("k" : String) ≠ "" ∧
    reddit_trends ("k") ("q") ("k") (.requestError ("boom")) ⟨[], "t"⟩ =
      (.error ⟨500, "Reddit request failed: " ++ "boom"⟩, ⟨[], "t"⟩, 1) :=
  ⟨by decide,
   (error_paths_amended ("k") ("q") ("k") (by decide) rfl).1 ("boom")
     ⟨[], "t"⟩⟩

/-- C9: the `/api/env-test` route answers without any API-key check, and
its response embeds the first ten characters of the configured `API_KEY`
and `SUPABASE_KEY`; two environments differing only in those secrets can
produce different responses, so the endpoint is not noninterferent with
respect to them. -/
theorem env_test_leaks_secrets :
    (∀ k e, env_test_route k e = .ok (env_test e)) ∧
    (∀ s u sk, s ≠ "" →
      (env_test ⟨some s, u, sk⟩).api_key_value_preview =
        some (s.take 10 ++ "...")) ∧
    (∀ s u a, s ≠ "" →
      (env_test ⟨a, u, some s⟩).supabase_key_preview =
        some (s.take 10 ++ "...")) ∧
    env_test ⟨some ("alpha"), some ("u"), some ("x")⟩ ≠
      env_test ⟨some ("beta"), some ("u"), some ("x")⟩ := by
  refine ⟨fun k e => rfl, ?_, ?_, ?_⟩
  · intro s u sk hs
    simp [env_test, envPreview, pyTruthy, hs]
  · intro s u a hs
    simp [env_test, envPreview, pyTruthy, hs]
  · intro h
    have := congrArg EnvTestResponse.api_key_value_preview h
    simp [env_test, envPreview, pyTruthy] at this
    exact absurd this (by decide)

/-- Witness for C9 with a secret longer than the preview window. -/
theorem env_test_leaks_secrets_witness :
    ("secret0123456789" : String) ≠ "" ∧
    (env_test ⟨some ("secret0123456789"), some ("u"),
        some ("sk")⟩).api_key_value_preview =
      some (("secret0123456789" : String).take 10 ++ "...") :=
  ⟨by decide,
   env_test_leaks_secrets.2.1 ("secret0123456789") (some ("u"))
     (some ("sk")) (by decide)⟩

theorem extractRaw_map_withData (posts : List RedditPost) :
    extractRaw (posts.map RedditChild.withData) = .ok posts := by
  induction posts with
  | nil => rfl
  | cons p t ih => simp [extractRaw, ih, Except.map]

/-- C10: a non-empty Reddit fetch in which no post record has a
`selftext` field makes `reddit_trends` fail through the 500
`Reddit processing error` path (the `selftext` column is missing), even
though every field needed for `top_posts` is present; nothing is stored. -/
theorem reddit_missing_selftext_errors (secret query api_key : String)
    (st : St) (hs : secret ≠ "") (hk : api_key = secret)
    (posts : List RedditPost) (hne : posts ≠ [])
    (hsel : ∀ p ∈ posts, p.selftext = none) :
    reddit_trends secret query api_key
        (.body (.dict (posts.map RedditChild.withData))) st =
      (.error ⟨500, "Reddit processing error: " ++ "selftext"⟩, st, 1) := by
  have hv : verify_api_key secret api_key = .ok api_key :=
    verify_api_key_ok hs hk
  have hall : posts.all (fun p => p.selftext.isNone) = true := by
    rw [List.all_eq_true]
    intro p hp
    rw [hsel p hp]
    rfl
  have hra : redditAnalyze posts = .error ("selftext") := by
    unfold redditAnalyze
    simp [hall]
  have hie : posts.isEmpty = false := by
    cases posts with
    | nil => exact absurd rfl hne
    | cons p t => rfl
  simp [reddit_trends, hv, extractRaw_map_withData, hie, hra]

/-- Witness for C10 at a one-post fetch without `selftext`. -/
theorem reddit_missing_selftext_errors_witness :
    ("k" : String) ≠ "" ∧
    ([⟨"p", 3, 1, 0, none⟩] : List RedditPost) ≠ [] ∧
    reddit_trends ("k") ("q") ("k")
        (.body (.dict (List.map RedditChild.withData
          [⟨"p", 3, 1, 0, none⟩]))) ⟨[], "t"⟩ =
      (.error ⟨500, "Reddit processing error: " ++ "selftext"⟩,
       ⟨[], "t"⟩, 1) :=
  ⟨by decide, by decide,
   reddit_missing_selftext_errors ("k") ("q") ("k") ⟨[], "t"⟩ (by decide)
     rfl [⟨"p", 3, 1, 0, none⟩] (by decide)
     (by intro p hp; rw [List.mem_singleton.mp hp])⟩
